import Mathlib

/-!
Shallow embedding of the movie-recommendation app's persistence and HTTP
layer (shared/schema.ts, server/storage.ts `DatabaseStorage`, and
server/routes.ts handlers).  The database is modelled as explicit lists of
rows; drizzle `insert` appends a row, `delete` filters, `select ... where`
filters, and `orderBy(desc(col))` is a stable sort with the newest row
first.  Timestamps (`defaultNow()`) and serial ids are passed explicitly to
each mutating operation.
-/

namespace MovieApp

/-- Row of the `users` table (shared/schema.ts). -/
structure User where
  id : Nat
  username : String
  email : String
  password : String
  name : Option String
  createdAt : Nat
deriving DecidableEq

/-- Row of the `saved_movies` table (shared/schema.ts). -/
structure SavedMovie where
  id : Nat
  userId : Nat
  movieId : String
  title : String
  posterPath : Option String
  releaseDate : Option String
  overview : Option String
  rating : Option Nat
  listType : String
  createdAt : Nat
deriving DecidableEq

/-- Row of the `user_watchlists` table (shared/schema.ts). -/
structure UserWatchlist where
  id : Nat
  userId : Nat
  name : String
  description : Option String
  isPublic : Bool
  createdAt : Nat
deriving DecidableEq

/-- Row of the `watchlist_movies` table (shared/schema.ts). -/
structure WatchlistMovie where
  id : Nat
  watchlistId : Nat
  movieId : String
  title : String
  posterPath : Option String
  releaseDate : Option String
  overview : Option String
  addedAt : Nat
deriving DecidableEq

/-- The relational store: the four tables of the movie-app variant. -/
structure DB where
  users : List User
  savedMovies : List SavedMovie
  userWatchlists : List UserWatchlist
  watchlistMovies : List WatchlistMovie
deriving DecidableEq

/-- `InsertUser` (schema.ts): `users` minus `id` and `createdAt`. -/
structure InsertUser where
  username : String
  email : String
  password : String
  name : Option String
deriving DecidableEq

/-- `InsertSavedMovie` (schema.ts): `saved_movies` minus `id`/`createdAt`. -/
structure InsertSavedMovie where
  userId : Nat
  movieId : String
  title : String
  posterPath : Option String
  releaseDate : Option String
  overview : Option String
  rating : Option Nat
  listType : String
deriving DecidableEq

/-- `InsertWatchlist` (schema.ts): `user_watchlists` minus `id`/`createdAt`. -/
structure InsertWatchlist where
  userId : Nat
  name : String
  description : Option String
  isPublic : Bool
deriving DecidableEq

/-- `InsertWatchlistMovie` (schema.ts): `watchlist_movies` minus `id`/`addedAt`. -/
structure InsertWatchlistMovie where
  watchlistId : Nat
  movieId : String
  title : String
  posterPath : Option String
  releaseDate : Option String
  overview : Option String
deriving DecidableEq

/-- `desc(addedAt)` comparison used by `getWatchlistMovies`: newest first. -/
def newerFirst (a b : WatchlistMovie) : Prop := b.addedAt ≤ a.addedAt

instance : DecidableRel newerFirst := fun a b => Nat.decLe b.addedAt a.addedAt

instance : IsTotal WatchlistMovie newerFirst :=
  ⟨fun a b => Nat.le_total b.addedAt a.addedAt⟩

instance : IsTrans WatchlistMovie newerFirst :=
  ⟨fun _ _ _ hab hbc => Nat.le_trans hbc hab⟩

/-- `desc(createdAt)` comparison used by `getSavedMovies`. -/
def savedNewerFirst (a b : SavedMovie) : Prop := b.createdAt ≤ a.createdAt

instance : DecidableRel savedNewerFirst := fun a b => Nat.decLe b.createdAt a.createdAt

/-- `desc(createdAt)` comparison used by `getUserWatchlists`. -/
def watchlistNewerFirst (a b : UserWatchlist) : Prop := b.createdAt ≤ a.createdAt

instance : DecidableRel watchlistNewerFirst := fun a b => Nat.decLe b.createdAt a.createdAt

/-- `DatabaseStorage.getUser`: `select ... where eq(users.id, id)`. -/
def getUser (db : DB) (id : Nat) : Option User :=
  db.users.find? (fun u => u.id == id)

/-- `DatabaseStorage.getUserByUsername`. -/
def getUserByUsername (db : DB) (username : String) : Option User :=
  db.users.find? (fun u => u.username == username)

/-- `DatabaseStorage.getUserByEmail`. -/
def getUserByEmail (db : DB) (email : String) : Option User :=
  db.users.find? (fun u => u.email == email)

/-- `DatabaseStorage.createUser`: insert and return the new row. -/
def createUser (db : DB) (newId now : Nat) (iu : InsertUser) : User × DB :=
  let u : User :=
    { id := newId, username := iu.username, email := iu.email,
      password := iu.password, name := iu.name, createdAt := now }
  (u, { db with users := db.users ++ [u] })

/-- The `and(eq userId, eq movieId, eq listType)` condition shared by
`removeSavedMovie` and `isMovieSaved` (storage.ts). -/
def savedMatch (userId : Nat) (movieId listType : String) (r : SavedMovie) : Bool :=
  r.userId == userId && r.movieId == movieId && r.listType == listType

/-- `DatabaseStorage.saveMovie`: insert a `saved_movies` row and return it. -/
def saveMovie (db : DB) (newId now : Nat) (m : InsertSavedMovie) : SavedMovie × DB :=
  let row : SavedMovie :=
    { id := newId, userId := m.userId, movieId := m.movieId,
      title := m.title, posterPath := m.posterPath, releaseDate := m.releaseDate,
      overview := m.overview, rating := m.rating, listType := m.listType, createdAt := now }
  (row, { db with savedMovies := db.savedMovies ++ [row] })

/-- `DatabaseStorage.getSavedMovies`: rows of one user and list type,
ordered by `createdAt` descending.  In the source `listType` has default
`"favorites"`; call sites that omit it pass `"favorites"` here. -/
def getSavedMovies (db : DB) (userId : Nat) (listType : String) : List SavedMovie :=
  List.insertionSort savedNewerFirst
    (db.savedMovies.filter (fun r => r.userId == userId && r.listType == listType))

/-- `DatabaseStorage.removeSavedMovie`: delete all rows matching
`(userId, movieId, listType)`; true iff at least one row was deleted
(`result.rowCount > 0`). -/
def removeSavedMovie (db : DB) (userId : Nat) (movieId listType : String) : Bool × DB :=
  let remaining := db.savedMovies.filter (fun r => !(savedMatch userId movieId listType r))
  (decide (remaining.length < db.savedMovies.length), { db with savedMovies := remaining })

/-- `DatabaseStorage.isMovieSaved`: `select ... limit(1)` then `!!movie`,
i.e. existence of a matching row. -/
def isMovieSaved (db : DB) (userId : Nat) (movieId listType : String) : Bool :=
  db.savedMovies.any (savedMatch userId movieId listType)

/-- `DatabaseStorage.createWatchlist`. -/
def createWatchlist (db : DB) (newId now : Nat) (w : InsertWatchlist) : UserWatchlist × DB :=
  let row : UserWatchlist :=
    { id := newId, userId := w.userId, name := w.name,
      description := w.description, isPublic := w.isPublic, createdAt := now }
  (row, { db with userWatchlists := db.userWatchlists ++ [row] })

/-- `DatabaseStorage.getUserWatchlists`: one user's watchlists, newest first. -/
def getUserWatchlists (db : DB) (userId : Nat) : List UserWatchlist :=
  List.insertionSort watchlistNewerFirst
    (db.userWatchlists.filter (fun w => w.userId == userId))

/-- `DatabaseStorage.getWatchlist`: lookup by id alone. -/
def getWatchlist (db : DB) (id : Nat) : Option UserWatchlist :=
  db.userWatchlists.find? (fun w => w.id == id)

/-- `DatabaseStorage.deleteWatchlist`: delete rows matching `(id, userId)`;
true iff a row was deleted.  Only the `user_watchlists` table is touched.  -/
def deleteWatchlist (db : DB) (id userId : Nat) : Bool × DB :=
  let remaining := db.userWatchlists.filter (fun w => !(w.id == id && w.userId == userId))
  (decide (remaining.length < db.userWatchlists.length), { db with userWatchlists := remaining })

/-- `DatabaseStorage.addMovieToWatchlist`: insert a membership row. -/
def addMovieToWatchlist (db : DB) (newId now : Nat) (m : InsertWatchlistMovie) :
    WatchlistMovie × DB :=
  let row : WatchlistMovie :=
    { id := newId, watchlistId := m.watchlistId,
      movieId := m.movieId, title := m.title, posterPath := m.posterPath,
      releaseDate := m.releaseDate, overview := m.overview, addedAt := now }
  (row, { db with watchlistMovies := db.watchlistMovies ++ [row] })

/-- `DatabaseStorage.removeMovieFromWatchlist`. -/
def removeMovieFromWatchlist (db : DB) (watchlistId : Nat) (movieId : String) : Bool × DB :=
  let remaining := db.watchlistMovies.filter
    (fun r => !(r.watchlistId == watchlistId && r.movieId == movieId))
  (decide (remaining.length < db.watchlistMovies.length),
    { db with watchlistMovies := remaining })

/-- `DatabaseStorage.getWatchlistMovies`: membership rows of one watchlist,
ordered by `addedAt` descending. -/
def getWatchlistMovies (db : DB) (watchlistId : Nat) : List WatchlistMovie :=
  List.insertionSort newerFirst
    (db.watchlistMovies.filter (fun r => r.watchlistId == watchlistId))

end MovieApp

namespace MovieApp

/-- Outcome of the external `jwt.verify` call as seen by the middleware:
either a decoded payload carrying `userId` (and `email`), or a thrown
`JsonWebTokenError`/`TokenExpiredError`. -/
inductive VerifyResult where
  | valid (userId : Nat) (email : String)
  | invalid
deriving DecidableEq

/-- Result of the `authenticateToken` middleware (routes.ts): either an
early `res.status(...).json(...)` rejection, or `next()` with `req.user`
attached. -/
inductive AuthOutcome where
  | reject (status : Nat) (message : String)
  | proceed (user : User)
deriving DecidableEq

/-- `authenticateToken` (routes.ts): extract the bearer token, verify it,
and resolve the embedded `userId` against the `users` table.  The extracted
`authHeader && authHeader.split(' ')[1]` is modelled as an `Option String`;
the external `jwt.verify` is a parameter. -/
def authenticateToken (db : DB) (token : Option String)
    (verify : String → VerifyResult) : AuthOutcome :=
  match token with
  | none => .reject 401 "Access token required"
  | some t =>
    match verify t with
    | .invalid => .reject 403 "Invalid token"
    | .valid userId _ =>
      match getUser db userId with
      | none => .reject 401 "Invalid token"
      | some u => .proceed u

/-- HTTP responses produced by the handlers modelled here. -/
inductive HResp where
  | err (status : Nat) (message : String)
  | okMsg (message : String)
  | createdUser (u : User)
  | createdSaved (m : SavedMovie)
  | createdWatchlistMovie (m : WatchlistMovie)
  | okWatchlistWithMovies (w : UserWatchlist) (movies : List WatchlistMovie)
deriving DecidableEq

/-- HTTP status carried by a response (success constructors use the
source's `res.status(201)` / default 200). -/
def statusOf : HResp → Nat
  | .err s _ => s
  | .okMsg _ => 200
  | .createdUser _ => 201
  | .createdSaved _ => 201
  | .createdWatchlistMovie _ => 201
  | .okWatchlistWithMovies _ _ => 200

/-- Parsed body accepted by `registerSchema` (schema.ts). -/
structure RegisterData where
  username : String
  email : String
  password : String
  name : Option String
deriving DecidableEq

/-- `POST /api/auth/register` handler (routes.ts) after a successful
`registerSchema.safeParse`: duplicate-email check, duplicate-username
check, then `createUser` with the bcrypt hash of the password (the external
`bcrypt.hash` is the parameter `hash`). -/
def registerHandler (db : DB) (d : RegisterData) (hash : String → String)
    (newId now : Nat) : HResp × DB :=
  match getUserByEmail db d.email with
  | some _ => (.err 409 "User already exists with this email", db)
  | none =>
    match getUserByUsername db d.username with
    | some _ => (.err 409 "Username already taken", db)
    | none =>
      let r := createUser db newId now
        { username := d.username, email := d.email,
          password := hash d.password, name := d.name }
      (.createdUser r.1, r.2)

/-- Parsed body accepted by `saveMovieSchema` (schema.ts); `listType` has
zod default `"favorites"`, so it is always present after parsing. -/
structure SaveMovieData where
  movieId : String
  title : String
  posterPath : Option String
  releaseDate : Option String
  overview : Option String
  rating : Option Nat
  listType : String
deriving DecidableEq

/-- `POST /api/movies/save` handler (routes.ts) after the middleware and a
successful `saveMovieSchema.safeParse`.  Note: the source calls
`storage.isMovieSaved(req.user!.id, validation.data.movieId)` WITHOUT a
third argument, so the storage default `"favorites"` is used for the
pre-check regardless of `validation.data.listType`. -/
def saveMovieHandler (db : DB) (userId : Nat) (d : SaveMovieData)
    (newId now : Nat) : HResp × DB :=
  if isMovieSaved db userId d.movieId ("favorites") then
    (.err 409 "Movie already saved", db)
  else
    let r := saveMovie db newId now
      { userId := userId, movieId := d.movieId, title := d.title,
        posterPath := d.posterPath, releaseDate := d.releaseDate,
        overview := d.overview, rating := d.rating, listType := d.listType }
    (.createdSaved r.1, r.2)

/-- `GET /api/watchlists/:id` handler body (routes.ts), after the
middleware has attached `req.user`.  `idParam` is the result of
`parseInt(req.params.id)` (`none` = `NaN`). -/
def getWatchlistHandler (db : DB) (userId : Nat) (idParam : Option Nat) : HResp :=
  match idParam with
  | none => .err 400 "Invalid watchlist ID"
  | some id =>
    match getWatchlist db id with
    | none => .err 404 "Watchlist not found"
    | some w =>
      if w.userId != userId && !w.isPublic then .err 403 "Access denied"
      else .okWatchlistWithMovies w (getWatchlistMovies db id)

/-- The full `GET /api/watchlists/:id` route: `authenticateToken`
middleware, then the handler. -/
def getWatchlistRoute (db : DB) (token : Option String)
    (verify : String → VerifyResult) (idParam : Option Nat) : HResp :=
  match authenticateToken db token verify with
  | .reject s msg => .err s msg
  | .proceed u => getWatchlistHandler db u.id idParam

/-- `DELETE /api/watchlists/:id` handler body (routes.ts): owner-scoped
delete; a false return from `deleteWatchlist` yields 404. -/
def deleteWatchlistHandler (db : DB) (userId : Nat) (idParam : Option Nat) : HResp × DB :=
  match idParam with
  | none => (.err 400 "Invalid watchlist ID", db)
  | some id =>
    let r := deleteWatchlist db id userId
    if r.1 then (.okMsg ("Watchlist deleted successfully"), r.2)
    else (.err 404 "Watchlist not found", r.2)

/-- Raw body of `POST /api/watchlists/:id/movies` before validation; the
body may itself carry a `watchlistId` field, which the handler overwrites
with the path parameter. -/
structure AddToWatchlistBody where
  watchlistId : Option Nat
  movieId : String
  title : String
  posterPath : Option String
  releaseDate : Option String
  overview : Option String
deriving DecidableEq

/-- `addToWatchlistSchema.safeParse` (schema.ts) applied to
`{...req.body, watchlistId}`: `watchlistId ≥ 1`, non-empty `movieId` and
`title`. -/
def addToWatchlistValid (watchlistId : Nat) (body : AddToWatchlistBody) : Bool :=
  1 ≤ watchlistId && 1 ≤ body.movieId.length && 1 ≤ body.title.length

/-- `POST /api/watchlists/:id/movies` handler body (routes.ts): the path
parameter replaces any `watchlistId` in the request body before
validation; then the ownership check, then `addMovieToWatchlist`. -/
def addToWatchlistHandler (db : DB) (userId : Nat) (idParam : Option Nat)
    (body : AddToWatchlistBody) (newId now : Nat) : HResp × DB :=
  match idParam with
  | none => (.err 400 "Invalid watchlist ID", db)
  | some watchlistId =>
    if addToWatchlistValid watchlistId body then
      match getWatchlist db watchlistId with
      | none => (.err 403 "Access denied", db)
      | some w =>
        if w.userId != userId then (.err 403 "Access denied", db)
        else
          let r := addMovieToWatchlist db newId now
            { watchlistId := watchlistId, movieId := body.movieId, title := body.title,
              posterPath := body.posterPath, releaseDate := body.releaseDate,
              overview := body.overview }
          (.createdWatchlistMovie r.1, r.2)
    else (.err 400 "Invalid movie data", db)

/-- Payload `{userId, email}` embedded in a token (routes.ts `jwt.sign`). -/
structure TokenPayload where
  userId : Nat
  email : String
deriving DecidableEq

/-- Modelled from the spec: the token service (spec §4.2).  The
`jsonwebtoken` library used by `jwt.sign`/`jwt.verify` in routes.ts is not
part of this repository, so the token is modelled as its decoded content
plus the signing secret and issue time; a signature check is modelled as
equality of secrets. -/
structure Token where
  payload : TokenPayload
  secret : String
  issuedAt : Nat
deriving DecidableEq

/-- `expiresIn: '7d'` in seconds. -/
def sevenDays : Nat := 7 * 24 * 60 * 60

/-- Modelled from the spec: `issue(userId, email)` signs `{userId, email}`
with the server secret, expiring 7 days from issuance (spec §4.2,
routes.ts `jwt.sign`). -/
def issue (userId : Nat) (email secret : String) (now : Nat) : Token :=
  { payload := { userId := userId, email := email }, secret := secret, issuedAt := now }

/-- Modelled from the spec: `verify(token)` performs the signature and
expiry checks only (spec §4.2, routes.ts `jwt.verify`); it consults no
stored state. -/
def verifyToken (tok : Token) (secret : String) (now : Nat) : Option TokenPayload :=
  if tok.secret == secret && now < tok.issuedAt + sevenDays then some tok.payload
  else none

end MovieApp

namespace MovieApp

/- Shared helper: a `delete` with condition `p` followed by an existence
check with the same condition finds nothing. -/
theorem any_filter_not {α : Type} (l : List α) (p : α → Bool) :
    (l.filter (fun r => !(p r))).any p = false := by
  simp [List.any_filter]

/- Concrete stores used by witnesses and counterexamples. -/

def emptyDB : DB := ⟨[], [], [], []⟩

def watchlistSaveData : SaveMovieData := ⟨"m1", "T", none, none, none, none, "watchlist"⟩

def publicDB : DB := ⟨[⟨1, "alice", "a@x.com", "h", none, 0⟩], [],
  [⟨5, 1, "Horror", none, true, 0⟩], []⟩

def soloOwnerDB : DB := ⟨[], [], [⟨5, 1, "n", none, false, 0⟩], []⟩

/-- C1 (counterexample): the save handler pre-checks
`isMovieSaved(userId, movieId)` with the defaulted list type
`"favorites"`, not the list type of the request.  Starting from an empty
store, saving `(user 1, movie m1, listType watchlist)` twice in sequence
returns 201 (not 409) the second time and leaves two rows with the tuple
`(1, m1, watchlist)`. -/
theorem save_watchlist_duplicate_rows :
    statusOf (saveMovieHandler (saveMovieHandler emptyDB 1 watchlistSaveData 1 0).2
      1 watchlistSaveData 2 1).1 = 201 ∧
    ((saveMovieHandler (saveMovieHandler emptyDB 1 watchlistSaveData 1 0).2
        1 watchlistSaveData 2 1).2.savedMovies.filter
      (savedMatch 1 "m1" "watchlist")).length = 2 := by decide

/-- C1 (amended): the save-movie handler checks
`isMovieSaved(u, m, "favorites")` (the storage default, since the call
omits the list type).  Consequently, when the request list type is
`"favorites"` and no matching favorites row exists, a second sequential
save of the same `(u, m, "favorites")` returns ConflictError (409) and
inserts no second row: the store is unchanged by the second call. -/
theorem save_favorites_second_conflicts (db : DB) (u newId1 t1 newId2 t2 : Nat)
    (d : SaveMovieData) (hfav : d.listType = "favorites")
    (h0 : isMovieSaved db u d.movieId ("favorites") = false) :
    (saveMovieHandler (saveMovieHandler db u d newId1 t1).2 u d newId2 t2).1
      = .err 409 "Movie already saved" ∧
    (saveMovieHandler (saveMovieHandler db u d newId1 t1).2 u d newId2 t2).2
      = (saveMovieHandler db u d newId1 t1).2 := by
  simp only [isMovieSaved] at h0
  simp [saveMovieHandler, saveMovie, isMovieSaved, h0, List.any_append, savedMatch, hfav]

/-- C1 (witness): the amended statement at a concrete input. -/
theorem save_favorites_second_conflicts_witness :
    (saveMovieHandler
        (saveMovieHandler emptyDB 1 ⟨"m1", "T", none, none, none, none, "favorites"⟩ 1 0).2
        1 ⟨"m1", "T", none, none, none, none, "favorites"⟩ 2 1).1
      = .err 409 "Movie already saved" ∧
    (saveMovieHandler
        (saveMovieHandler emptyDB 1 ⟨"m1", "T", none, none, none, none, "favorites"⟩ 1 0).2
        1 ⟨"m1", "T", none, none, none, none, "favorites"⟩ 2 1).2
      = (saveMovieHandler emptyDB 1 ⟨"m1", "T", none, none, none, none, "favorites"⟩ 1 0).2 :=
  save_favorites_second_conflicts emptyDB 1 1 0 2 1 _ rfl (by decide)

/-- C2: for every request to a protected route, `authenticateToken`
produces exactly one of four outcomes: no bearer token rejects with 401;
a token that fails verification rejects with 403; a verified token whose
embedded userId matches no user rejects with 401; otherwise the resolved
user is attached and the handler runs. -/
theorem authenticateToken_four_outcomes (db : DB) (tok : Option String)
    (verify : String → VerifyResult) :
    (tok = none ∧ authenticateToken db tok verify = .reject 401 "Access token required") ∨
    (∃ t, tok = some t ∧ verify t = .invalid ∧
      authenticateToken db tok verify = .reject 403 "Invalid token") ∨
    (∃ t uid e, tok = some t ∧ verify t = .valid uid e ∧ getUser db uid = none ∧
      authenticateToken db tok verify = .reject 401 "Invalid token") ∨
    (∃ t uid e u, tok = some t ∧ verify t = .valid uid e ∧ getUser db uid = some u ∧
      authenticateToken db tok verify = .proceed u) := by
  match htok : tok with
  | none => exact Or.inl ⟨rfl, rfl⟩
  | some t =>
    match hv : verify t with
    | .invalid =>
      exact Or.inr (Or.inl ⟨t, rfl, hv, by simp [authenticateToken, hv]⟩)
    | .valid uid e =>
      match hu : getUser db uid with
      | none =>
        exact Or.inr (Or.inr (Or.inl ⟨t, uid, e, rfl, hv, hu,
          by simp [authenticateToken, hv, hu]⟩))
      | some u =>
        exact Or.inr (Or.inr (Or.inr ⟨t, uid, e, u, rfl, hv, hu,
          by simp [authenticateToken, hv, hu]⟩))

/-- C3 (counterexample): `GET /api/watchlists/:id` sits behind the
`authenticateToken` middleware, so a requester presenting no bearer token
is rejected with 401 even for a public watchlist, instead of receiving
the watchlist with its movies. -/
theorem public_watchlist_needs_token :
    getWatchlistRoute publicDB none (fun _ => .invalid) (some 5)
      = .err 401 "Access token required" ∧
    getWatchlistRoute publicDB none (fun _ => .invalid) (some 5)
      ≠ .okWatchlistWithMovies ⟨5, 1, "Horror", none, true, 0⟩
          (getWatchlistMovies publicDB 5) := by
  decide

/-- C3 (amended): an unauthenticated request is rejected with 401; for
every authenticated requester, `GET /api/watchlists/:id` returns the
watchlist together with its movies when it is public, returns 403 when it
is private and the requester is not the owner, and succeeds for the
owner. -/
theorem getWatchlist_route_access (db : DB) (tok : Option String)
    (verify : String → VerifyResult) (wid : Nat) (w : UserWatchlist)
    (hw : getWatchlist db wid = some w) :
    (tok = none →
      getWatchlistRoute db tok verify (some wid) = .err 401 "Access token required") ∧
    (∀ u : User, authenticateToken db tok verify = .proceed u →
      ((w.isPublic = true →
         getWatchlistRoute db tok verify (some wid)
           = .okWatchlistWithMovies w (getWatchlistMovies db wid)) ∧
       (w.isPublic = false → u.id ≠ w.userId →
         getWatchlistRoute db tok verify (some wid) = .err 403 "Access denied") ∧
       (u.id = w.userId →
         getWatchlistRoute db tok verify (some wid)
           = .okWatchlistWithMovies w (getWatchlistMovies db wid)))) := by
  constructor
  · intro h
    subst h
    rfl
  · intro u hu
    refine ⟨?_, ?_, ?_⟩
    · intro hpub
      simp [getWatchlistRoute, hu, getWatchlistHandler, hw, hpub]
    · intro hpriv hne
      simp [getWatchlistRoute, hu, getWatchlistHandler, hw, hpriv, bne_iff_ne, Ne.symm hne]
    · intro hown
      simp [getWatchlistRoute, hu, getWatchlistHandler, hw, hown]

/-- C3 (witness): an authenticated non-owner fetches a public watchlist. -/
theorem getWatchlist_route_access_witness :
    getWatchlistRoute publicDB (some ("t")) (fun _ => .valid 1 "a@x.com") (some 5)
      = .okWatchlistWithMovies ⟨5, 1, "Horror", none, true, 0⟩
          (getWatchlistMovies publicDB 5) :=
  ((getWatchlist_route_access publicDB (some ("t")) (fun _ => .valid 1 "a@x.com") 5
      ⟨5, 1, "Horror", none, true, 0⟩ rfl).2 ⟨1, "alice", "a@x.com", "h", none, 0⟩ rfl).1 rfl

/-- C4 (counterexample): a non-owner delete of watchlist 5 (owned by user
1, attempted by user 2) is rejected with 404 "Watchlist not found", not
403, though the store is indeed left unchanged. -/
theorem delete_nonowner_is_404 :
    statusOf (deleteWatchlistHandler soloOwnerDB 2 (some 5)).1 = 404 ∧
    (deleteWatchlistHandler soloOwnerDB 2 (some 5)).1 ≠ .err 403 "Access denied" ∧
    (deleteWatchlistHandler soloOwnerDB 2 (some 5)).2 = soloOwnerDB := by decide

/-- C4 (amended): for a watchlist `w` in the store (with `id` unique, as
the serial primary key guarantees) and any requester `v` distinct from the
owner, `deleteWatchlist(w.id, v)` returns false and the DELETE request by
`v` is rejected with 404 (not 403); the store — the watchlist row and all
of its WatchlistMovie rows — is unchanged. -/
theorem delete_nonowner_noop (db : DB) (w : UserWatchlist) (v : Nat)
    (hw : w ∈ db.userWatchlists)
    (hkey : ∀ w2 ∈ db.userWatchlists, w2.id = w.id → w2 = w)
    (hv : v ≠ w.userId) :
    (deleteWatchlist db w.id v).1 = false ∧
    (deleteWatchlistHandler db v (some w.id)).1 = .err 404 "Watchlist not found" ∧
    (deleteWatchlistHandler db v (some w.id)).2 = db := by
  have hall : ∀ r ∈ db.userWatchlists, (!(r.id == w.id && r.userId == v)) = true := by
    intro r hr
    by_cases hid : r.id = w.id
    · have hrw := hkey r hr hid
      subst hrw
      simp [Ne.symm hv]
    · simp [hid]
  have hfe : db.userWatchlists.filter (fun r => !(r.id == w.id && r.userId == v))
      = db.userWatchlists := List.filter_eq_self.mpr hall
  have hfalse : (deleteWatchlist db w.id v).1 = false := by
    simp only [deleteWatchlist]
    rw [hfe]
    simp
  have hdb : (deleteWatchlist db w.id v).2 = db := by
    simp only [deleteWatchlist]
    rw [hfe]
  refine ⟨hfalse, ?_, ?_⟩
  · simp [deleteWatchlistHandler, hfalse]
  · simp [deleteWatchlistHandler, hfalse, hdb]

/-- C4 (witness): the amended statement at a concrete input. -/
theorem delete_nonowner_noop_witness :
    (deleteWatchlist soloOwnerDB 5 2).1 = false ∧
    (deleteWatchlistHandler soloOwnerDB 2 (some 5)).1 = .err 404 "Watchlist not found" ∧
    (deleteWatchlistHandler soloOwnerDB 2 (some 5)).2 = soloOwnerDB :=
  delete_nonowner_noop soloOwnerDB ⟨5, 1, "n", none, false, 0⟩ 2
    (by decide) (by decide) (by decide)

/-- C5: `deleteWatchlist` touches only the `user_watchlists` table: the
users, saved-movies and watchlist-movies tables are unchanged, so
`getWatchlistMovies` returns the same rows after the delete as before it
(no cascade delete; orphans are left behind). -/
theorem deleteWatchlist_keeps_watchlist_movies (db : DB) (id userId wid : Nat) :
    ((deleteWatchlist db id userId).2).watchlistMovies = db.watchlistMovies ∧
    ((deleteWatchlist db id userId).2).users = db.users ∧
    ((deleteWatchlist db id userId).2).savedMovies = db.savedMovies ∧
    getWatchlistMovies (deleteWatchlist db id userId).2 wid = getWatchlistMovies db wid :=
  ⟨rfl, rfl, rfl, rfl⟩

/-- C6: in every state already containing a user row with the requested
email, a second registration with that email returns ConflictError (409)
and leaves the whole store — in particular the users table — unchanged. -/
theorem register_duplicate_email_conflict (db : DB) (d : RegisterData)
    (hash : String → String) (newId now : Nat)
    (h : ∃ u ∈ db.users, u.email = d.email) :
    (registerHandler db d hash newId now).1 = .err 409 "User already exists with this email" ∧
    (registerHandler db d hash newId now).2 = db := by
  have hs : (getUserByEmail db d.email).isSome := by
    rw [getUserByEmail, List.find?_isSome]
    obtain ⟨u, hu, he⟩ := h
    exact ⟨u, hu, by simp [he]⟩
  obtain ⟨u, hu⟩ := Option.isSome_iff_exists.mp hs
  simp [registerHandler, hu]

/-- C6 (witness): re-registering an existing email at a concrete store. -/
theorem register_duplicate_email_conflict_witness :
    (registerHandler ⟨[⟨1, "alice", "a@x.com", "h", none, 0⟩], [], [], []⟩
        ⟨"bob", "a@x.com", "pw1234", none⟩ (fun s => s) 2 1).1
      = .err 409 "User already exists with this email" ∧
    (registerHandler ⟨[⟨1, "alice", "a@x.com", "h", none, 0⟩], [], [], []⟩
        ⟨"bob", "a@x.com", "pw1234", none⟩ (fun s => s) 2 1).2
      = ⟨[⟨1, "alice", "a@x.com", "h", none, 0⟩], [], [], []⟩ :=
  register_duplicate_email_conflict _ _ _ 2 1
    ⟨⟨1, "alice", "a@x.com", "h", none, 0⟩, by simp, rfl⟩

/-- C7: the save/remove round-trip.  `isMovieSaved(u, m, "favorites")` is
false in a state with no matching row, becomes true immediately after
`saveMovie(u, m, ..., "favorites")`, and becomes false again after
`removeSavedMovie(u, m, "favorites")`. -/
theorem saved_roundtrip (db : DB) (u newId now : Nat) (m : String) (d : InsertSavedMovie)
    (hnone : ∀ r ∈ db.savedMovies, savedMatch u m ("favorites") r = false)
    (hu : d.userId = u) (hm : d.movieId = m) (hl : d.listType = "favorites") :
    isMovieSaved db u m ("favorites") = false ∧
    isMovieSaved (saveMovie db newId now d).2 u m ("favorites") = true ∧
    isMovieSaved (removeSavedMovie (saveMovie db newId now d).2 u m ("favorites")).2
      u m ("favorites") = false := by
  refine ⟨?_, ?_, ?_⟩
  · simp only [isMovieSaved, List.any_eq_false]
    intro r hr
    simp [hnone r hr]
  · simp [isMovieSaved, saveMovie, List.any_append, savedMatch, hu, hm, hl]
  · exact any_filter_not _ _

/-- C7 (witness): the round-trip from the empty store. -/
theorem saved_roundtrip_witness :
    isMovieSaved emptyDB 1 "m1" ("favorites") = false ∧
    isMovieSaved (saveMovie emptyDB 1 0 ⟨1, "m1", "T", none, none, none, none, "favorites"⟩).2
      1 "m1" ("favorites") = true ∧
    isMovieSaved (removeSavedMovie
        (saveMovie emptyDB 1 0 ⟨1, "m1", "T", none, none, none, none, "favorites"⟩).2
        1 "m1" ("favorites")).2 1 "m1" ("favorites") = false :=
  saved_roundtrip emptyDB 1 1 0 "m1" ⟨1, "m1", "T", none, none, none, none, "favorites"⟩
    (by decide) rfl rfl rfl

/-- C8: a token issued for `(userId, email)` verifies to the same payload
at any time strictly before 7 days after issuance, fails at or after the
7-day mark, and the check consults signature and expiry only — it succeeds
even in a store where no user with that id exists (no existence re-check
inside verification). -/
theorem token_issue_verify (uid : Nat) (e secret : String) (t0 t1 t2 : Nat)
    (h1 : t1 < t0 + sevenDays) (h2 : t0 + sevenDays ≤ t2) :
    verifyToken (issue uid e secret t0) secret t1 = some { userId := uid, email := e } ∧
    verifyToken (issue uid e secret t0) secret t2 = none ∧
    (∀ db : DB, getUser db uid = none →
      verifyToken (issue uid e secret t0) secret t1 = some { userId := uid, email := e }) := by
  refine ⟨?_, ?_, fun _ _ => ?_⟩
  · simp [verifyToken, issue, h1]
  · simp [verifyToken, issue]
    omega
  · simp [verifyToken, issue, h1]

/-- C8 (witness): issuance at time 100, verification at 101 and at the
expiry bound. -/
theorem token_issue_verify_witness :
    verifyToken (issue 7 "a@x.com" "s" 100) "s" 101 = some { userId := 7, email := "a@x.com" } ∧
    verifyToken (issue 7 "a@x.com" "s" 100) "s" (100 + sevenDays) = none :=
  And.intro
    (token_issue_verify 7 "a@x.com" "s" 100 101 (100 + sevenDays) (by decide) (by decide)).1
    (token_issue_verify 7 "a@x.com" "s" 100 101 (100 + sevenDays) (by decide) (by decide)).2.1

/-- C9: `getWatchlistMovies` always returns rows ordered by `addedAt`
descending (newest first); in particular, adding movie A and then movie B
(strictly later) to a watchlist with no prior members yields [B, A]. -/
theorem watchlist_movies_newest_first (db0 : DB) (wid idA idB tA tB : Nat)
    (a b : InsertWatchlistMovie)
    (hempty : db0.watchlistMovies.filter (fun r => r.watchlistId == wid) = [])
    (ha : a.watchlistId = wid) (hb : b.watchlistId = wid) (ht : tA < tB) :
    (∀ (db : DB) (w : Nat), List.Sorted newerFirst (getWatchlistMovies db w)) ∧
    getWatchlistMovies (addMovieToWatchlist (addMovieToWatchlist db0 idA tA a).2 idB tB b).2 wid
      = [(addMovieToWatchlist (addMovieToWatchlist db0 idA tA a).2 idB tB b).1,
         (addMovieToWatchlist db0 idA tA a).1] := by
  constructor
  · intro db w
    exact List.sorted_insertionSort newerFirst _
  · have hno : ¬ (tB ≤ tA) := Nat.not_le.mpr ht
    simp [getWatchlistMovies, addMovieToWatchlist, List.filter_append, hempty, ha, hb,
      List.insertionSort, List.orderedInsert, newerFirst, hno]

/-- C9 (witness): movie A at time 10 then movie B at time 20 in watchlist
5 of the empty store come back as [B, A]. -/
theorem watchlist_movies_newest_first_witness :
    getWatchlistMovies (addMovieToWatchlist
        (addMovieToWatchlist emptyDB 1 10 ⟨5, "A", "TA", none, none, none⟩).2
        2 20 ⟨5, "B", "TB", none, none, none⟩).2 5
      = [(addMovieToWatchlist
            (addMovieToWatchlist emptyDB 1 10 ⟨5, "A", "TA", none, none, none⟩).2
            2 20 ⟨5, "B", "TB", none, none, none⟩).1,
         (addMovieToWatchlist emptyDB 1 10 ⟨5, "A", "TA", none, none, none⟩).1] :=
  (watchlist_movies_newest_first emptyDB 5 1 2 10 20
    ⟨5, "A", "TA", none, none, none⟩ ⟨5, "B", "TB", none, none, none⟩
    rfl rfl rfl (by decide)).2

/-- C10: in `POST /api/watchlists/:id/movies` the numeric path parameter
overwrites any `watchlistId` supplied in the request body before
validation and insertion: the handler's outcome does not depend on the
body's `watchlistId`, and every created membership row carries exactly the
path id (and is appended to the membership table). -/
theorem add_to_watchlist_path_id_wins (db : DB) (userId n newId now : Nat)
    (body : AddToWatchlistBody) :
    (∀ x : Option Nat,
      addToWatchlistHandler db userId (some n) { body with watchlistId := x } newId now
        = addToWatchlistHandler db userId (some n) body newId now) ∧
    (∀ (m : WatchlistMovie) (db2 : DB),
      addToWatchlistHandler db userId (some n) body newId now = (.createdWatchlistMovie m, db2) →
        m.watchlistId = n ∧ db2.watchlistMovies = db.watchlistMovies ++ [m]) := by
  constructor
  · intro x
    cases body
    rfl
  · intro m db2 h
    by_cases hval : addToWatchlistValid n body
    · rcases hgw : getWatchlist db n with _ | w
      · simp [addToWatchlistHandler, hval, hgw] at h
      · by_cases hown : (w.userId != userId) = true
        · simp [addToWatchlistHandler, hval, hgw, hown] at h
        · simp [addToWatchlistHandler, hval, hgw, hown, addMovieToWatchlist,
            Prod.ext_iff] at h
          obtain ⟨h1, h2⟩ := h
          subst h2
          constructor
          · rw [← h1]
          · rw [← h1]
    · simp [addToWatchlistHandler, hval] at h

/-- C10 (witness): the owner of watchlist 5 posts a body whose
`watchlistId` says 3; the created row nevertheless carries watchlistId 5. -/
theorem add_to_watchlist_path_id_wins_witness :
    (⟨9, 5, "m", "T", none, none, none, 7⟩ : WatchlistMovie).watchlistId = 5 ∧
    (⟨[], [], [⟨5, 1, "n", none, false, 0⟩],
        [⟨9, 5, "m", "T", none, none, none, 7⟩]⟩ : DB).watchlistMovies
      = soloOwnerDB.watchlistMovies ++ [⟨9, 5, "m", "T", none, none, none, 7⟩] :=
  (add_to_watchlist_path_id_wins soloOwnerDB 1 5 9 7 ⟨some 3, "m", "T", none, none, none⟩).2
    ⟨9, 5, "m", "T", none, none, none, 7⟩
    ⟨[], [], [⟨5, 1, "n", none, false, 0⟩], [⟨9, 5, "m", "T", none, none, none, 7⟩]⟩ rfl

end MovieApp
